import Mathlib

/-!
Shallow embedding of `src/app.py` (nikunj8787/text2image), a Streamlit app
that turns a text prompt into an image via a remote provider.

The embedded state mirrors the `st.session_state` fields the orchestration
core uses: `daily_requests`, `last_request_date` (a calendar day, abstracted
as a day number), and `image_gallery`.  The single outbound HTTP call in
`generate_image` is modelled by passing in its outcome (`PostOutcome`), and
each `st.error` call is recorded in an `errors` list so that surfaced
failure reasons are observable.
-/

/-- `DAILY_LIMIT = 50` from app.py line 15. -/
def DAILY_LIMIT : Nat := 50

/-- A gallery entry as built in `add_to_gallery` (app.py lines 106-110). -/
structure GalleryItem where
  url : String
  prompt : String
  timestamp : String
deriving Repr, DecidableEq

/-- The session-state fields used by the orchestration core
(`init_session_state`, app.py lines 19-30).  Dates are abstracted to day
numbers; equality of day numbers models equality of calendar dates. -/
structure AppState where
  daily_requests : Nat
  last_request_date : Nat
  image_gallery : List GalleryItem
deriving Repr, DecidableEq

/-- `reset_daily_counter` (app.py lines 32-37): if the stored date is not
today, zero the counter and move the window to today. -/
def reset_daily_counter (today : Nat) (s : AppState) : AppState :=
  if s.last_request_date ≠ today then
    { s with daily_requests := 0, last_request_date := today }
  else s

/-- `check_request_limit` (app.py lines 39-42): reset first, then compare
the counter against `DAILY_LIMIT`.  Returns the boolean together with the
(possibly reset) state. -/
def check_request_limit (today : Nat) (s : AppState) : Bool × AppState :=
  let s1 := reset_daily_counter today s
  (decide (s1.daily_requests < DAILY_LIMIT), s1)

/-- Outcome of the single `requests.post` call in `generate_image`:
either an HTTP response (status code, body text, and the value of
`response.json().get('data', \x7b\x7d).get('url')`), or a raised
`requests.exceptions.RequestException` with a message. -/
inductive PostOutcome where
  | ok (status_code : Nat) (text : String) (dataUrl : Option String)
  | exc (msg : String)
deriving Repr, DecidableEq

/-- Whether the provider outcome is an HTTP 200 response. -/
def isHttp200 : PostOutcome → Bool
  | .ok status _ _ => status == 200
  | .exc _ => false

/-- Observable result of one `generate_image` call: the returned value
(`None` or a url), the `st.error` messages emitted, the number of
`requests.post` calls performed, and the final session state. -/
structure GenResult where
  image_url : Option String
  errors : List String
  posts : Nat
  state : AppState
deriving Repr, DecidableEq

/-- `generate_image` (app.py lines 44-77).  Checks the limit (which may
reset the window), returns early on denial; otherwise performs exactly one
HTTP post.  On status 200 it increments `daily_requests` and returns the
body's `data.url` field; on any other status or on a network exception it
emits an error message and returns `None` without touching the counter. -/
def generate_image (today : Nat) (outcome : PostOutcome) (s : AppState) : GenResult :=
  let (okQ, s1) := check_request_limit today s
  if !okQ then
    { image_url := none
      errors := ["Daily limit of " ++ toString DAILY_LIMIT ++
                 " requests exceeded. Please try again tomorrow."]
      posts := 0
      state := s1 }
  else
    match outcome with
    | .ok status text dataUrl =>
      if status == 200 then
        { image_url := dataUrl
          errors := []
          posts := 1
          state := { s1 with daily_requests := s1.daily_requests + 1 } }
      else
        { image_url := none
          errors := ["API Error: " ++ toString status ++ " - " ++ text]
          posts := 1
          state := s1 }
    | .exc msg =>
      { image_url := none
        errors := ["Network error: " ++ msg]
        posts := 1
        state := s1 }

/-- `generate_image` as run against an ordered list of provider candidate
outcomes: the code issues exactly one `requests.post`, so only the first
candidate can ever be observed (`dflt` stands for the transport's behavior
when no candidate is supplied). -/
def generate_with_candidates (today : Nat) (cands : List PostOutcome)
    (dflt : PostOutcome) (s : AppState) : GenResult :=
  generate_image today (cands.headD dflt) s

/-- `add_to_gallery` (app.py lines 104-114): build the entry with the
current timestamp, insert at index 0, then truncate to the first 5 when the
list exceeds 5. -/
def add_to_gallery (now_iso : String) (image_url prompt : String) (s : AppState) : AppState :=
  let gallery_item : GalleryItem := { url := image_url, prompt := prompt, timestamp := now_iso }
  let g := gallery_item :: s.image_gallery
  { s with image_gallery := if g.length > 5 then g.take 5 else g }

/-- Python `str.strip()`: drop whitespace from both ends.  Modelled on the
character list so that it evaluates by kernel reduction. -/
def py_strip (s : String) : String :=
  ⟨((s.data.dropWhile Char.isWhitespace).reverse.dropWhile Char.isWhitespace).reverse⟩

/-- Python truthiness of the value returned by `generate_image`
(`None` and the empty string are falsy). -/
def pyTruthy : Option String → Bool
  | none => false
  | some s => !s.isEmpty

/-- What the text-tab click handler displays. -/
inductive SubmitOutcome where
  | warnedEmpty
  | generated (url : String)
  | noImage
deriving Repr, DecidableEq

/-- Observable result of one click of the Generate button. -/
structure SubmitResult where
  shown : SubmitOutcome
  errors : List String
  posts : Nat
  state : AppState
deriving Repr, DecidableEq

/-- The text-tab Generate button handler in `main` (app.py lines 228-236):
if the stripped prompt is non-empty, call `generate_image`; if a truthy url
came back, add it to the gallery and display it; otherwise just surface
whatever errors `generate_image` emitted.  An empty (stripped) prompt only
produces the warning, touching nothing. -/
def text_tab_submit (today : Nat) (now_iso : String) (outcome : PostOutcome)
    (prompt : String) (s : AppState) : SubmitResult :=
  if !((py_strip prompt).isEmpty) then
    let r := generate_image today outcome s
    if pyTruthy r.image_url then
      { shown := .generated (r.image_url.getD "")
        errors := r.errors
        posts := r.posts
        state := add_to_gallery now_iso (r.image_url.getD "") prompt r.state }
    else
      { shown := .noImage, errors := r.errors, posts := r.posts, state := r.state }
  else
    { shown := .warnedEmpty, errors := [], posts := 0, state := s }

/-- The gallery entry built from an `(timestamp, url, prompt)` triple. -/
def entryOf (it : String × String × String) : GalleryItem :=
  { url := it.2.1, prompt := it.2.2, timestamp := it.1 }

/-- Fold `add_to_gallery` over a list of `(timestamp, url, prompt)`
insertions, earliest first. -/
def run_adds (items : List (String × String × String)) (s : AppState) : AppState :=
  items.foldl (fun st it => add_to_gallery it.1 it.2.1 it.2.2 st) s

/-- The error message `generate_image` emits for a failed provider attempt
(app.py lines 72 and 76). -/
def failure_message : PostOutcome → String
  | .ok status text _ => "API Error: " ++ toString status ++ " - " ++ text
  | .exc msg => "Network error: " ++ msg

/-! ### Helper lemmas about the gallery -/

/-- The branchy truncation in `add_to_gallery` is the same as always taking
the first 5 elements of the extended list. -/
theorem add_to_gallery_gallery_eq (now u p : String) (s : AppState) :
    (add_to_gallery now u p s).image_gallery =
      (({ url := u, prompt := p, timestamp := now } : GalleryItem) ::
        s.image_gallery).take 5 := by
  unfold add_to_gallery
  by_cases h :
      (({ url := u, prompt := p, timestamp := now } : GalleryItem) ::
        s.image_gallery).length > 5
  · simp [h]
  · simp [h, List.take_of_length_le (Nat.le_of_not_lt h)]

/-- Truncating, appending on the left, and truncating again is the same as
truncating the full append once. -/
theorem take_append_take {α : Type} (n : Nat) (a b : List α) :
    (a ++ b.take n).take n = (a ++ b).take n := by
  rw [List.take_append_eq_append_take, List.take_append_eq_append_take,
    List.take_take, Nat.min_eq_left (Nat.sub_le n a.length)]

/-- Running a batch of insertions keeps the 5 newest entries of the
(reversed) insertion sequence followed by the prior gallery. -/
theorem run_adds_gallery (items : List (String × String × String)) (s : AppState)
    (hs : s.image_gallery.length ≤ 5) :
    (run_adds items s).image_gallery =
      ((items.map entryOf).reverse ++ s.image_gallery).take 5 := by
  induction items generalizing s with
  | nil => simp [run_adds, List.take_of_length_le hs]
  | cons it rest ih =>
    have hstep : run_adds (it :: rest) s =
        run_adds rest (add_to_gallery it.1 it.2.1 it.2.2 s) := rfl
    have hlen : (add_to_gallery it.1 it.2.1 it.2.2 s).image_gallery.length ≤ 5 := by
      rw [add_to_gallery_gallery_eq]
      exact List.length_take_le 5 _
    rw [hstep, ih _ hlen, add_to_gallery_gallery_eq, take_append_take]
    simp [entryOf, List.append_assoc]

/-! ### Claim theorems -/

/-- C3: the gallery never holds more than 5 entries after any insertion,
every insertion places the new entry at the head, and after inserting
`5 + k` entries (k ≥ 1) into a gallery of at most 5 entries, the gallery
holds exactly the 5 most recently inserted entries, newest first. -/
theorem gallery_bounded_head_insert_recent (s : AppState)
    (items : List (String × String × String))
    (hs : s.image_gallery.length ≤ 5) (h6 : 6 ≤ items.length) :
    (∀ now u p s1, (add_to_gallery now u p s1).image_gallery.length ≤ 5) ∧
    (∀ now u p s1, (add_to_gallery now u p s1).image_gallery.head? =
      some { url := u, prompt := p, timestamp := now }) ∧
    (run_adds items s).image_gallery = ((items.map entryOf).reverse).take 5 := by
  refine ⟨?_, ?_, ?_⟩
  · intro now u p s1
    rw [add_to_gallery_gallery_eq]
    exact List.length_take_le 5 _
  · intro now u p s1
    rw [add_to_gallery_gallery_eq]
    rfl
  · rw [run_adds_gallery items s hs]
    have hrev : 5 ≤ ((items.map entryOf).reverse).length := by
      rw [List.length_reverse, List.length_map]
      omega
    rw [List.take_append_of_le_length hrev]

/-- Witness for C3 at a concrete run of six insertions into the empty
gallery. -/
theorem gallery_bounded_head_insert_recent_witness :
    (run_adds [("t1", "u1", "p1"), ("t2", "u2", "p2"), ("t3", "u3", "p3"),
        ("t4", "u4", "p4"), ("t5", "u5", "p5"), ("t6", "u6", "p6")]
      ⟨0, 0, []⟩).image_gallery =
    (([("t1", "u1", "p1"), ("t2", "u2", "p2"), ("t3", "u3", "p3"),
        ("t4", "u4", "p4"), ("t5", "u5", "p5"), ("t6", "u6", "p6")].map
          entryOf).reverse).take 5 :=
  (gallery_bounded_head_insert_recent ⟨0, 0, []⟩
    [("t1", "u1", "p1"), ("t2", "u2", "p2"), ("t3", "u3", "p3"),
     ("t4", "u4", "p4"), ("t5", "u5", "p5"), ("t6", "u6", "p6")]
    (by decide) (by decide)).2.2

/-- C10: every prior gallery entry that survives the size-5 truncation is
kept unchanged, shifted exactly one position toward the tail; the insertion
is total and signals no error. -/
theorem add_to_gallery_preserves_survivors (now u p : String) (s : AppState)
    (i : Nat) (h : i + 1 < (add_to_gallery now u p s).image_gallery.length) :
    (add_to_gallery now u p s).image_gallery.get? (i + 1) =
      s.image_gallery.get? i := by
  rw [add_to_gallery_gallery_eq] at h ⊢
  have h5 : i + 1 < 5 := Nat.lt_of_lt_of_le h (List.length_take_le 5 _)
  rw [List.get?_take h5]
  rfl

/-- Witness for C10: inserting on top of a one-entry gallery moves that
entry, unchanged, from index 0 to index 1. -/
theorem add_to_gallery_preserves_survivors_witness :
    (add_to_gallery "t1" "u1" "p1"
        ⟨0, 0, [{ url := "u0", prompt := "p0", timestamp := "t0" }]⟩).image_gallery.get? 1 =
      (AppState.mk 0 0 [{ url := "u0", prompt := "p0", timestamp := "t0" }]).image_gallery.get? 0 :=
  add_to_gallery_preserves_survivors "t1" "u1" "p1"
    ⟨0, 0, [{ url := "u0", prompt := "p0", timestamp := "t0" }]⟩ 0 (by decide)

/-- C4: when the stored window date is not today, `check_request_limit`
first resets the counter to 0 and the window date to today, and the
comparison against the limit is then made on the reset counter, so the
check succeeds (a fresh allowance). -/
theorem check_request_limit_new_day_resets_first (today : Nat) (s : AppState)
    (h : s.last_request_date ≠ today) :
    check_request_limit today s =
      (true, { s with daily_requests := 0, last_request_date := today }) := by
  simp [check_request_limit, reset_daily_counter, h, DAILY_LIMIT]

/-- Witness for C4: a state dated day 0 with an exhausted counter, checked
on day 1. -/
theorem check_request_limit_new_day_resets_first_witness :
    check_request_limit 1 ⟨50, 0, []⟩ =
      (true, { AppState.mk 50 0 [] with daily_requests := 0, last_request_date := 1 }) :=
  check_request_limit_new_day_resets_first 1 ⟨50, 0, []⟩ (by decide)

/-- C6: with today's window date and the counter at the limit,
`generate_image` is denied: it returns `None`, performs no provider call,
leaves the counter unchanged, and emits the quota-exceeded message. -/
theorem generate_image_denied_at_limit (today : Nat) (o : PostOutcome)
    (s : AppState) (hd : s.last_request_date = today)
    (hc : s.daily_requests = DAILY_LIMIT) :
    (generate_image today o s).image_url = none ∧
    (generate_image today o s).posts = 0 ∧
    (generate_image today o s).state.daily_requests = s.daily_requests ∧
    (generate_image today o s).errors =
      ["Daily limit of " ++ toString DAILY_LIMIT ++
       " requests exceeded. Please try again tomorrow."] := by
  simp [generate_image, check_request_limit, reset_daily_counter, hd, hc]

/-- Witness for C6 at the concrete limit state. -/
theorem generate_image_denied_at_limit_witness :
    (generate_image 0 (.ok 200 "body" (some "http://img")) ⟨50, 0, []⟩).image_url = none ∧
    (generate_image 0 (.ok 200 "body" (some "http://img")) ⟨50, 0, []⟩).posts = 0 ∧
    (generate_image 0 (.ok 200 "body" (some "http://img")) ⟨50, 0, []⟩).state.daily_requests =
      (AppState.mk 50 0 []).daily_requests ∧
    (generate_image 0 (.ok 200 "body" (some "http://img")) ⟨50, 0, []⟩).errors =
      ["Daily limit of " ++ toString DAILY_LIMIT ++
       " requests exceeded. Please try again tomorrow."] :=
  generate_image_denied_at_limit 0 (.ok 200 "body" (some "http://img"))
    ⟨50, 0, []⟩ rfl rfl

/-- C7: a prompt that is empty after stripping is rejected with the
empty-input warning; no quota is consumed, no provider call is made, and
the whole session state (gallery included) is unchanged. -/
theorem empty_prompt_rejected_unchanged (today : Nat) (now : String)
    (o : PostOutcome) (prompt : String) (s : AppState)
    (hp : (py_strip prompt).isEmpty = true) :
    text_tab_submit today now o prompt s =
      { shown := .warnedEmpty, errors := [], posts := 0, state := s } := by
  simp [text_tab_submit, hp]

/-- Witness for C7 on a whitespace-only prompt. -/
theorem empty_prompt_rejected_unchanged_witness :
    text_tab_submit 0 "t0" (.ok 200 "body" (some "http://img")) "   "
        ⟨3, 0, [{ url := "u0", prompt := "p0", timestamp := "t0" }]⟩ =
      { shown := .warnedEmpty, errors := [], posts := 0,
        state := ⟨3, 0, [{ url := "u0", prompt := "p0", timestamp := "t0" }]⟩ } :=
  empty_prompt_rejected_unchanged 0 "t0" (.ok 200 "body" (some "http://img"))
    "   " ⟨3, 0, [{ url := "u0", prompt := "p0", timestamp := "t0" }]⟩ (by decide)

/-! ### Helper lemmas about `generate_image` and the submit handler -/

/-- `add_to_gallery` only touches the gallery field. -/
theorem add_to_gallery_daily_requests (now u p : String) (s : AppState) :
    (add_to_gallery now u p s).daily_requests = s.daily_requests := by
  simp [add_to_gallery]

/-- `generate_image` never modifies the gallery. -/
theorem generate_image_gallery (today : Nat) (o : PostOutcome) (s : AppState) :
    (generate_image today o s).state.image_gallery = s.image_gallery := by
  cases o <;>
    simp [generate_image, check_request_limit, reset_daily_counter] <;>
    split_ifs <;> rfl

/-- `generate_image` performs at most one HTTP post. -/
theorem generate_image_posts_le_one (today : Nat) (o : PostOutcome) (s : AppState) :
    (generate_image today o s).posts ≤ 1 := by
  cases o <;>
    simp [generate_image, check_request_limit, reset_daily_counter] <;>
    split_ifs <;> simp

/-- When the (normalized) counter is below the limit, `generate_image`
performs exactly one HTTP post. -/
theorem generate_image_posts_eq_one (today : Nat) (o : PostOutcome) (s : AppState)
    (hq : (reset_daily_counter today s).daily_requests < DAILY_LIMIT) :
    (generate_image today o s).posts = 1 := by
  cases o with
  | ok status text du =>
    by_cases h200 : (status == 200) = true <;>
      simp [generate_image, check_request_limit, hq, h200]
  | exc m => simp [generate_image, check_request_limit, hq]

/-- The counter after `generate_image` under a passing limit check:
incremented exactly on an HTTP 200 outcome, otherwise unchanged (relative
to the normalized state). -/
theorem generate_image_daily (today : Nat) (o : PostOutcome) (s : AppState)
    (hq : (reset_daily_counter today s).daily_requests < DAILY_LIMIT) :
    (generate_image today o s).state.daily_requests =
      (reset_daily_counter today s).daily_requests +
        (if isHttp200 o then 1 else 0) := by
  cases o with
  | ok status text du =>
    by_cases h200 : (status == 200) = true <;>
      simp [generate_image, check_request_limit, hq, h200, isHttp200]
  | exc m => simp [generate_image, check_request_limit, hq, isHttp200]

/-- Under a passing limit check, a non-200 outcome yields no url and
exactly the corresponding error message. -/
theorem generate_image_fail (today : Nat) (o : PostOutcome) (s : AppState)
    (hq : (reset_daily_counter today s).daily_requests < DAILY_LIMIT)
    (hfail : isHttp200 o = false) :
    (generate_image today o s).image_url = none ∧
    (generate_image today o s).errors = [failure_message o] := by
  cases o with
  | ok status text du =>
    have h200 : (status == 200) = false := hfail
    simp [generate_image, check_request_limit, hq, h200, failure_message]
  | exc m => simp [generate_image, check_request_limit, hq, failure_message]

/-- For a non-empty prompt the click handler reports `generate_image`'s
counter (the gallery insertion does not touch it). -/
theorem text_tab_submit_daily (today : Nat) (now : String) (o : PostOutcome)
    (prompt : String) (s : AppState)
    (hp : (py_strip prompt).isEmpty = false) :
    (text_tab_submit today now o prompt s).state.daily_requests =
      (generate_image today o s).state.daily_requests := by
  unfold text_tab_submit
  by_cases ht : pyTruthy (generate_image today o s).image_url = true <;>
    simp [hp, ht, add_to_gallery_daily_requests]

/-- C1 (counterexample): a submitted action with a non-empty prompt whose
quota check passes (one provider post is made), but whose provider attempt
returns HTTP 500: the daily counter stays at 0 instead of being
incremented, so the increment does depend on the provider's response
status. -/
theorem quota_increment_depends_on_status_counterexample :
    (text_tab_submit 0 "t0" (.ok 500 "server error" none) "a red fox"
      ⟨0, 0, []⟩).posts = 1 ∧
    (text_tab_submit 0 "t0" (.ok 500 "server error" none) "a red fox"
      ⟨0, 0, []⟩).state.daily_requests = 0 ∧
    ¬ (text_tab_submit 0 "t0" (.ok 500 "server error" none) "a red fox"
      ⟨0, 0, []⟩).state.daily_requests = 0 + 1 := by
  decide

/-- C1 (amended): for a submitted action with non-empty stripped prompt
whose quota check passes, the daily counter is incremented exactly once
when the provider responds HTTP 200 and is left unchanged on any other
response or network error. -/
theorem submit_increments_quota_iff_http200 (today : Nat) (now : String)
    (o : PostOutcome) (prompt : String) (s : AppState)
    (hp : (py_strip prompt).isEmpty = false)
    (hq : (reset_daily_counter today s).daily_requests < DAILY_LIMIT) :
    (text_tab_submit today now o prompt s).state.daily_requests =
      (reset_daily_counter today s).daily_requests +
        (if isHttp200 o then 1 else 0) := by
  rw [text_tab_submit_daily today now o prompt s hp]
  exact generate_image_daily today o s hq

/-- Witness for the amended C1 on a concrete successful submission. -/
theorem submit_increments_quota_iff_http200_witness :
    (text_tab_submit 0 "t0" (.ok 200 "body" (some "http://img")) "a red fox"
      ⟨3, 0, []⟩).state.daily_requests =
      (reset_daily_counter 0 ⟨3, 0, []⟩).daily_requests +
        (if isHttp200 (.ok 200 "body" (some "http://img")) then 1 else 0) :=
  submit_increments_quota_iff_http200 0 "t0" (.ok 200 "body" (some "http://img"))
    "a red fox" ⟨3, 0, []⟩ (by decide) (by decide)

/-- C2 (counterexample): run against the candidate outcome sequence
[Fail, Fail, Success], generation performs exactly one provider call,
observes exactly one failure, and returns no image — it never reaches the
succeeding third candidate, contradicting "two failures are observed before
the success". -/
theorem chain_fail_fail_success_counterexample :
    (generate_with_candidates 0
      [.ok 503 "first failure" none, .ok 503 "second failure" none,
       .ok 200 "body" (some "http://img")] (.exc "no transport")
      ⟨0, 0, []⟩).posts = 1 ∧
    (generate_with_candidates 0
      [.ok 503 "first failure" none, .ok 503 "second failure" none,
       .ok 200 "body" (some "http://img")] (.exc "no transport")
      ⟨0, 0, []⟩).errors.length = 1 ∧
    (generate_with_candidates 0
      [.ok 503 "first failure" none, .ok 503 "second failure" none,
       .ok 200 "body" (some "http://img")] (.exc "no transport")
      ⟨0, 0, []⟩).image_url = none := by
  decide

/-- C2 (amended): generation consults only the first provider candidate —
its result is independent of every later candidate — and it makes at most
one provider call in all cases; there is no fallback iteration. -/
theorem chain_uses_only_first_candidate (today : Nat) (c : PostOutcome)
    (rest : List PostOutcome) (dflt : PostOutcome) (s : AppState) :
    generate_with_candidates today (c :: rest) dflt s =
      generate_image today c s ∧
    (generate_with_candidates today (c :: rest) dflt s).posts ≤ 1 :=
  ⟨rfl, generate_image_posts_le_one today c s⟩

/-- C5 (counterexample): today's window, counter 3 < 50, but the provider
attempt raises a network error: the counter stays at 3 instead of being
incremented to 4, so "Allowed and increments by exactly 1" fails. -/
theorem below_limit_increment_counterexample :
    (generate_image 0 (.exc "connection refused") ⟨3, 0, []⟩).posts = 1 ∧
    (generate_image 0 (.exc "connection refused") ⟨3, 0, []⟩).state.daily_requests = 3 ∧
    ¬ (generate_image 0 (.exc "connection refused")
      ⟨3, 0, []⟩).state.daily_requests = 3 + 1 := by
  decide

/-- C5 (amended): with today's window date and the counter strictly below
the limit, the attempt is allowed — the limit check passes and exactly one
provider call is made — and the counter is incremented by exactly 1
precisely when the provider responds HTTP 200, otherwise left unchanged. -/
theorem below_limit_allowed_increment_on_success (today : Nat) (o : PostOutcome)
    (s : AppState) (hd : s.last_request_date = today)
    (hc : s.daily_requests < DAILY_LIMIT) :
    (generate_image today o s).posts = 1 ∧
    (generate_image today o s).state.daily_requests =
      (if isHttp200 o then s.daily_requests + 1 else s.daily_requests) := by
  have hr : reset_daily_counter today s = s := by
    simp [reset_daily_counter, hd]
  have hq : (reset_daily_counter today s).daily_requests < DAILY_LIMIT := by
    rw [hr]; exact hc
  refine ⟨generate_image_posts_eq_one today o s hq, ?_⟩
  rw [generate_image_daily today o s hq, hr]
  by_cases h : isHttp200 o = true <;> simp [h]

/-- Witness for the amended C5 at a concrete below-limit state. -/
theorem below_limit_allowed_increment_on_success_witness :
    (generate_image 0 (.ok 200 "body" (some "http://img")) ⟨3, 0, []⟩).posts = 1 ∧
    (generate_image 0 (.ok 200 "body" (some "http://img"))
      ⟨3, 0, []⟩).state.daily_requests =
      (if isHttp200 (.ok 200 "body" (some "http://img")) then 3 + 1 else 3) :=
  below_limit_allowed_increment_on_success 0 (.ok 200 "body" (some "http://img"))
    ⟨3, 0, []⟩ rfl (by decide)

/-- C8: a generation attempt that fails (non-200 response or network
error) surfaces exactly the corresponding failure reason through an error
message, and the gallery is not modified. -/
theorem failing_attempt_surfaces_reason_gallery_unchanged (today : Nat)
    (now prompt : String) (o : PostOutcome) (s : AppState)
    (hp : (py_strip prompt).isEmpty = false)
    (hq : (reset_daily_counter today s).daily_requests < DAILY_LIMIT)
    (hfail : isHttp200 o = false) :
    (text_tab_submit today now o prompt s).errors = [failure_message o] ∧
    (text_tab_submit today now o prompt s).state.image_gallery =
      s.image_gallery := by
  obtain ⟨hurl, herr⟩ := generate_image_fail today o s hq hfail
  unfold text_tab_submit
  rw [hp]
  simp [hurl, pyTruthy, herr, generate_image_gallery]

/-- Witness for C8 on a network error against a non-empty gallery. -/
theorem failing_attempt_surfaces_reason_gallery_unchanged_witness :
    (text_tab_submit 0 "t1" (.exc "timeout") "a cat"
      ⟨0, 0, [{ url := "u0", prompt := "p0", timestamp := "t0" }]⟩).errors =
      [failure_message (.exc "timeout")] ∧
    (text_tab_submit 0 "t1" (.exc "timeout") "a cat"
      ⟨0, 0, [{ url := "u0", prompt := "p0", timestamp := "t0" }]⟩).state.image_gallery =
      (AppState.mk 0 0 [{ url := "u0", prompt := "p0", timestamp := "t0" }]).image_gallery :=
  failing_attempt_surfaces_reason_gallery_unchanged 0 "t1" "a cat" (.exc "timeout")
    ⟨0, 0, [{ url := "u0", prompt := "p0", timestamp := "t0" }]⟩
    (by decide) (by decide) (by decide)

/-- C9: a provider response with HTTP status 200 whose body lacks a
`data.url` field: the daily counter is incremented (0 → 1) even though no
image is returned, nothing is displayed, and no gallery entry is added. -/
theorem http200_missing_url_consumes_quota_without_image :
    text_tab_submit 0 "t0" (.ok 200 "no url field" none) "a cat" ⟨0, 0, []⟩ =
      { shown := .noImage, errors := [], posts := 1,
        state := { daily_requests := 1, last_request_date := 0,
                   image_gallery := [] } } := by
  decide
